import Mathlib

/-!
Verification of the openLCA IPC client repository.

Part 1 (`PetPc`) embeds the keyword-search and data-building helpers of
`examples/test-pet-pc.py`.  Part 2 (`Mcp`) embeds the agent-tool layer of
`mcp-server/src/server.py`.  Part 3 (`OlcaUtils`) embeds the package
initializer `olca_utils/__init__.py`.

Python strings are modelled as `List Char` where their character content
matters (case folding, substring tests) and as `String` where they are
opaque identifiers or messages.  Remote IPC calls are modelled as an
oracle of fallible functions (`Except String`), so that a raised Python
exception corresponds to an `Except.error` outcome.
-/

namespace PetPc

/-- A flow descriptor fetched from the remote store
(one element of `client.get_descriptors(o.Flow)`). -/
structure FlowRef where
  id : Nat
  name : List Char
deriving DecidableEq

/-- Python `str.lower()` on the characters of a string. -/
def lowerStr (s : List Char) : List Char := s.map Char.toLower

/-- Boolean prefix test on character lists. -/
def startsWith : List Char → List Char → Bool
  | [], _ => true
  | _ :: _, [] => false
  | a :: as, b :: bs => a == b && startsWith as bs

/-- Python substring containment `needle in hay`. -/
def containsSub (needle : List Char) : List Char → Bool
  | [] => needle.isEmpty
  | c :: t => startsWith needle (c :: t) || containsSub needle t

/-- The match test used by `find_flow_by_keywords`: every (already
lowercased) keyword is a substring of the lowercased candidate name. -/
def matchesKeywords (keywordsLower : List (List Char)) (f : FlowRef) : Bool :=
  keywordsLower.all fun kw => containsSub kw (lowerStr f.name)

/-- Observable output of one search: the list the function returns and
the sequence of names it printed while scanning. -/
structure SearchOutput where
  found : List FlowRef
  printed : List (List Char)
deriving DecidableEq

/-- The scanning loop of `find_flow_by_keywords`: every matching
descriptor is appended to the match list; the name is printed only while the
match list has not grown beyond `max_results`. -/
def searchLoop (keywordsLower : List (List Char)) (max_results : Nat) :
    List FlowRef → List FlowRef → List (List Char) → SearchOutput
  | [], acc, printed => { found := acc, printed := printed }
  | f :: rest, acc, printed =>
    if matchesKeywords keywordsLower f then
      let acc1 := acc ++ [f]
      let printed1 := if acc1.length ≤ max_results then printed ++ [f.name] else printed
      searchLoop keywordsLower max_results rest acc1 printed1
    else
      searchLoop keywordsLower max_results rest acc printed

/-- `find_flow_by_keywords(keywords, max_results)` run over the
descriptor list fetched from the remote store. -/
def find_flow_by_keywords (descriptors : List FlowRef)
    (keywords : List (List Char)) (max_results : Nat) : SearchOutput :=
  searchLoop (keywords.map lowerStr) max_results descriptors [] []

/-- One provider relation returned by `get_providers`, in the duck-typed
shapes the script probes for: a `provider` attribute, a `process`
attribute, or neither (in which case the relation object itself is
returned; its reference content is the carried payload). -/
inductive TechFlow where
  | withProvider (p : FlowRef)
  | withProcess (p : FlowRef)
  | bare (p : FlowRef)
deriving DecidableEq

/-- The reference `find_best_provider` extracts from a provider
relation. -/
def TechFlow.assocRef : TechFlow → FlowRef
  | .withProvider p => p
  | .withProcess p => p
  | .bare p => p

/-- `find_best_provider(flow_ref)`: the provider fetch may raise (the
`except` branch prints a warning and returns `None`); on success the
first relation of the fetched list is inspected, and `None` is returned
for an empty list. -/
def find_best_provider (fetched : Except String (List TechFlow)) : Option FlowRef :=
  match fetched with
  | .error _ => none
  | .ok [] => none
  | .ok (first :: _) => some first.assocRef

/-- Type tags of `o.RefType` used by the script. -/
inductive RefType where
  | Flow
  | FlowProperty
  | Unit
  | Process
deriving DecidableEq

/-- An `o.Ref` built by the script: id, name, and type tag.  Entity ids
are modelled as naturals. -/
structure Ref where
  id : Nat
  name : List Char
  ref_type : RefType
deriving DecidableEq

/-- The session-global `mass_prop` / `kg_unit` entities fetched once at
startup: only their id and name are read by the builders. -/
structure EntityInfo where
  id : Nat
  name : List Char
deriving DecidableEq

/-- An `o.Exchange`; every field the script can set, all defaulted to
the schema defaults (`None` / `0` / `False`). -/
structure Exchange where
  flow : Option Ref := none
  amount : Rat := 0
  unit : Option Ref := none
  flow_property : Option Ref := none
  is_input : Bool := false
  is_quantitative_reference : Bool := false
  default_provider : Option Ref := none
  internal_id : Option Nat := none
deriving DecidableEq

/-- The duck-typed `flow_ref` argument of `make_exchange`: an `o.Ref`,
an object with `id`/`name` attributes (an `o.Flow` or any other
id-carrying object; both branches build the same reference), or a value
matching neither probe (the `flow` field is then left unset). -/
inductive FlowArg where
  | asRef (r : Ref)
  | asFlow (id : Nat) (name : List Char)
  | neither
deriving DecidableEq

/-- The duck-typed `provider_ref` argument of `make_exchange`: an
`o.Ref` or an object with `id`/`name` attributes. -/
inductive ProvArg where
  | asRef (r : Ref)
  | withId (id : Nat) (name : List Char)
deriving DecidableEq

/-- The reference `make_exchange` stores for a provider argument. -/
def ProvArg.toRef : ProvArg → Ref
  | .asRef r => r
  | .withId i n => { id := i, name := n, ref_type := RefType.Process }

/-- `make_exchange(flow_ref, amount, is_input, is_qref, provider_ref)`:
pure construction of an `o.Exchange`.  The source performs no client
call here, so the embedding is a pure function of its arguments and the
two session globals. -/
def make_exchange (mass_prop kg_unit : EntityInfo) (flow_ref : FlowArg)
    (amount : Rat) (is_input : Bool) (is_qref : Bool)
    (provider_ref : Option ProvArg) : Exchange :=
  { flow :=
      match flow_ref with
      | .asRef r => some r
      | .asFlow i n => some { id := i, name := n, ref_type := RefType.Flow }
      | .neither => none
    amount := amount
    unit := some { id := kg_unit.id, name := kg_unit.name, ref_type := RefType.Unit }
    flow_property := some { id := mass_prop.id, name := mass_prop.name, ref_type := RefType.FlowProperty }
    is_input := is_input
    is_quantitative_reference := is_qref
    default_provider :=
      match provider_ref with
      | none => none
      | some p => some p.toRef }

/-- Process type tags used by the script. -/
inductive ProcessType where
  | UNIT_PROCESS
  | LCI_RESULT
deriving DecidableEq

/-- An `o.Process` as the script builds it. -/
structure Process where
  name : List Char
  description : List Char
  process_type : ProcessType
  exchanges : List Exchange := []
  last_internal_id : Nat := 0
deriving DecidableEq

/-- The id-assignment loop of `create_process`:
`for i, ex in enumerate(exchanges, start=1): ex.internal_id = i`. -/
def assignIds : Nat → List Exchange → List Exchange
  | _, [] => []
  | n, e :: es => { e with internal_id := some n } :: assignIds (n + 1) es

/-- `create_process(name, description, exchanges)`: builds the process,
assigns 1-based sequential internal ids, sets `last_internal_id` to the
exchange count, submits via `client.put` (modelled as appending to the
session's put log) and returns the process. -/
def create_process (name description : List Char) (exchanges : List Exchange)
    (put_log : List Process) : Process × List Process :=
  let p : Process :=
    { name := name
      description := description
      process_type := ProcessType.UNIT_PROCESS
      exchanges := assignIds 1 exchanges
      last_internal_id := exchanges.length }
  (p, put_log ++ [p])

theorem all_of_perm {α : Type} {l1 l2 : List α} (h : List.Perm l1 l2)
    (p : α → Bool) : l1.all p = l2.all p := by
  rw [Bool.eq_iff_iff, List.all_eq_true, List.all_eq_true]
  exact ⟨fun H x hx => H x (h.mem_iff.mpr hx), fun H x hx => H x (h.mem_iff.mp hx)⟩

theorem searchLoop_eq (kws : List (List Char)) (m : Nat) :
    ∀ rest acc printed,
      searchLoop kws m rest acc printed =
        { found := acc ++ rest.filter (matchesKeywords kws),
          printed := printed ++
            (((rest.filter (matchesKeywords kws)).map FlowRef.name).take (m - acc.length)) } := by
  intro rest
  induction rest with
  | nil => intro acc printed; simp [searchLoop]
  | cons f fr ih =>
    intro acc printed
    by_cases hf : matchesKeywords kws f = true
    · rw [searchLoop]
      simp only [hf, if_true, List.filter_cons, ih, List.length_append,
        List.length_singleton, List.map_cons]
      by_cases hlen : acc.length + 1 ≤ m
      · obtain ⟨k, hk⟩ : ∃ k, m - acc.length = k + 1 := ⟨m - acc.length - 1, by omega⟩
        have hk2 : m - (acc.length + 1) = k := by omega
        simp only [hlen, if_true, hk, hk2, List.take_succ_cons]
        simp
      · have h0 : m - acc.length = 0 := by omega
        have h1 : m - (acc.length + 1) = 0 := by omega
        simp only [hlen, if_false, h0, h1, List.take_zero, List.append_nil]
        simp
    · rw [searchLoop]
      simp only [Bool.not_eq_true] at hf
      simp [List.filter_cons, hf, ih]

/-- A matching descriptor used in concrete evaluations. -/
def fA : FlowRef := { id := 1, name := ['a'] }

/-- A second matching descriptor used in concrete evaluations. -/
def fBA : FlowRef := { id := 2, name := ['b', 'a'] }

/-- C2 counterexample: with two descriptors matching keyword list
`["a"]` and `max_results = 1`, `find_flow_by_keywords` returns a list of
2 matches — more than `max_results` — refuting the claim that at most
`max_results` matches are returned (the loop appends every match and the
bound only limits printing). -/
theorem find_flow_exceeds_max_results :
    (find_flow_by_keywords [fA, fBA] [['a']] 1).found.length = 2 ∧
    ¬ (find_flow_by_keywords [fA, fBA] [['a']] 1).found.length ≤ 1 := by
  decide

theorem find_flow_found_filter (descriptors : List FlowRef)
    (keywords : List (List Char)) (m : Nat) :
    (find_flow_by_keywords descriptors keywords m).found =
      descriptors.filter (matchesKeywords (keywords.map lowerStr)) := by
  rw [find_flow_by_keywords, searchLoop_eq]
  simp

/-- C2 (amended): for every keyword list and every `max_results` value
m, the keyword flow search returns the list of ALL matching descriptors
in scan order; m bounds only the printed report: exactly the first m
matches are printed while the remaining matches are only counted. -/
theorem find_flow_records_all_matches (descriptors : List FlowRef)
    (keywords : List (List Char)) (m : Nat) :
    (find_flow_by_keywords descriptors keywords m).found =
      descriptors.filter (matchesKeywords (keywords.map lowerStr)) ∧
    (find_flow_by_keywords descriptors keywords m).printed =
      ((descriptors.filter (matchesKeywords (keywords.map lowerStr))).map FlowRef.name).take m := by
  refine ⟨find_flow_found_filter descriptors keywords m, ?_⟩
  rw [find_flow_by_keywords, searchLoop_eq]
  simp

/-- C3: the keyword search includes a fetched descriptor iff every
keyword, case-folded, is a substring of the descriptor's case-folded
name (AND semantics), and reordering the keyword list does not change
the result. -/
theorem find_flow_and_semantics (descriptors : List FlowRef)
    (keywords : List (List Char)) (m : Nat) (f : FlowRef) :
    (f ∈ (find_flow_by_keywords descriptors keywords m).found ↔
      f ∈ descriptors ∧
        ∀ kw ∈ keywords, containsSub (lowerStr kw) (lowerStr f.name) = true) ∧
    (∀ keywords2, List.Perm keywords keywords2 →
      find_flow_by_keywords descriptors keywords m =
        find_flow_by_keywords descriptors keywords2 m) := by
  constructor
  · rw [find_flow_found_filter descriptors keywords m]
    rw [List.mem_filter]
    simp [matchesKeywords, List.all_eq_true]
  · intro keywords2 hperm
    have hpred : ∀ x ∈ descriptors,
        matchesKeywords (keywords.map lowerStr) x =
          matchesKeywords (keywords2.map lowerStr) x :=
      fun x _ => all_of_perm (hperm.map lowerStr) _
    have hfil : descriptors.filter (matchesKeywords (keywords.map lowerStr)) =
        descriptors.filter (matchesKeywords (keywords2.map lowerStr)) :=
      List.filter_congr hpred
    rw [find_flow_by_keywords, find_flow_by_keywords, searchLoop_eq, searchLoop_eq, hfil]

/-- C3 witness: a concrete permutation of a concrete keyword list gives
the same search output. -/
theorem find_flow_and_semantics_witness :
    find_flow_by_keywords [fA, fBA] [['a'], ['b']] 5 =
      find_flow_by_keywords [fA, fBA] [['b'], ['a']] 5 :=
  (find_flow_and_semantics [fA, fBA] [['a'], ['b']] 5 fA).2 [['b'], ['a']] (by decide)

/-- C8: on a successful provider fetch, `find_best_provider` returns
the reference associated with the first relation of the fetched list,
or `none` when that list is empty. -/
theorem find_best_provider_first (l : List TechFlow) :
    find_best_provider (Except.ok l) = l.head?.map TechFlow.assocRef := by
  cases l <;> rfl

theorem assignIds_getElem (l : List Exchange) :
    ∀ n i : Nat, (assignIds n l)[i]? =
      (l[i]?).map fun e => { e with internal_id := some (n + i) } := by
  induction l with
  | nil => intro n i; simp [assignIds]
  | cons e es ih =>
    intro n i
    cases i with
    | zero => simp [assignIds]
    | succ j =>
      have harith : n + 1 + j = n + (j + 1) := by omega
      simp [assignIds, ih, harith]

/-- C7: `create_process` assigns the i-th exchange (1-based, in list
order) internal identifier i, sets the process's last internal id to
the length of the exchange list, submits the process to the remote
store, and returns it. -/
theorem create_process_sequential_ids (name description : List Char)
    (exchanges : List Exchange) (put_log : List Process) :
    (∀ i : Nat,
      ((create_process name description exchanges put_log).1.exchanges)[i]? =
        (exchanges[i]?).map fun e => { e with internal_id := some (i + 1) }) ∧
    (create_process name description exchanges put_log).1.exchanges.length =
      exchanges.length ∧
    (create_process name description exchanges put_log).1.last_internal_id =
      exchanges.length ∧
    (create_process name description exchanges put_log).2 =
      put_log ++ [(create_process name description exchanges put_log).1] := by
  refine ⟨fun i => ?_, ?_, rfl, rfl⟩
  · have h := assignIds_getElem exchanges 1 i
    have harith : 1 + i = i + 1 := by omega
    rw [harith] at h
    exact h
  · show (assignIds 1 exchanges).length = exchanges.length
    generalize 1 = n
    induction exchanges generalizing n with
    | nil => rfl
    | cons e es ih => simp [assignIds, ih]

/-- C9: `make_exchange` is embedded as a pure function — the source
performs no client call, so it can change no remote or client state —
and the exchange it returns carries the Mass flow-property reference,
the kg unit reference, and the amount, input flag,
quantitative-reference flag and default provider from the arguments. -/
theorem make_exchange_fields (mass_prop kg_unit : EntityInfo)
    (flow_ref : FlowArg) (amount : Rat) (is_input is_qref : Bool)
    (provider_ref : Option ProvArg) :
    (make_exchange mass_prop kg_unit flow_ref amount is_input is_qref provider_ref).flow_property =
      some { id := mass_prop.id, name := mass_prop.name, ref_type := RefType.FlowProperty } ∧
    (make_exchange mass_prop kg_unit flow_ref amount is_input is_qref provider_ref).unit =
      some { id := kg_unit.id, name := kg_unit.name, ref_type := RefType.Unit } ∧
    (make_exchange mass_prop kg_unit flow_ref amount is_input is_qref provider_ref).amount =
      amount ∧
    (make_exchange mass_prop kg_unit flow_ref amount is_input is_qref provider_ref).is_input =
      is_input ∧
    (make_exchange mass_prop kg_unit flow_ref amount is_input is_qref
      provider_ref).is_quantitative_reference = is_qref ∧
    (make_exchange mass_prop kg_unit flow_ref amount is_input is_qref
      provider_ref).default_provider = provider_ref.map ProvArg.toRef := by
  refine ⟨rfl, rfl, rfl, rfl, rfl, ?_⟩
  cases provider_ref <;> rfl

end PetPc

namespace Mcp

/-- A flow or process descriptor returned by the search component; the
handlers read `id`, `name`, and (when the attribute exists) `category`. -/
structure FlowDesc where
  id : String
  name : String
  category : Option String := none
deriving DecidableEq

/-- A reference to one impact category of a method. -/
structure CatRef where
  id : String
  name : String
deriving DecidableEq

/-- An impact method object; `impact_categories` may be absent
(the handler substitutes the empty list when rendering). -/
structure Method where
  id : String
  name : String
  impact_categories : Option (List CatRef) := none
deriving DecidableEq

/-- A provider process descriptor. -/
structure ProvDesc where
  id : String
  name : String
deriving DecidableEq

/-- A created flow entity as echoed back by the data builder. -/
structure FlowObj where
  id : String
  name : String
  description : String
deriving DecidableEq

/-- A created process entity as echoed back by the data builder. -/
structure ProcObj where
  id : String
  name : String
  description : String
deriving DecidableEq

/-- A created product system as echoed back by the system builder. -/
structure SysObj where
  id : String
  name : String
deriving DecidableEq

/-- The `o.FlowType` enum members the search tool accepts. -/
inductive FlowType where
  | PRODUCT_FLOW
  | ELEMENTARY_FLOW
  | WASTE_FLOW
deriving DecidableEq

/-- A reference passed down to the client library: either an `o.Ref`
built from a bare id string, or a descriptor obtained from a search. -/
inductive ORef where
  | byId (id : String)
  | fromDesc (f : FlowDesc)
deriving DecidableEq

/-- Impact totals as rendered into the calculate_impacts payload:
category name and amount. -/
abbrev Impacts := List (String × Rat)

/-- The result payload of a successful tool call, one constructor per
handler response shape. -/
inductive Payload where
  | empty
  | flows (xs : List FlowDesc)
  | processes (xs : List FlowDesc)
  | methodInfo (m : Method)
  | providers (xs : List ProvDesc)
  | flowCreated (f : FlowObj)
  | processCreated (p : ProcObj)
  | systemCreated (s : SysObj)
  | calcResult (result_id : String) (impacts : Impacts) (message : String)
  | message (m : String)
  | connection (connected : Bool) (port : Nat)
deriving DecidableEq

/-- The JSON object a handler serializes into its `TextContent` reply:
a `success` boolean, an optional `error` string, and the result
payload. -/
structure Resp where
  success : Bool
  error : Option String := none
  payload : Payload := Payload.empty
deriving DecidableEq

/-- One entry of the `exchanges` array accepted by the create_process
tool (`flow_id`, `amount`, `is_input` are required by its schema and by
the handler's direct subscripting; the other two keys are probed with
`in` / `.get`). -/
structure ExArg where
  flow_id : String
  amount : Rat
  is_input : Bool
  is_quantitative_reference : Option Bool := none
  provider_id : Option String := none
deriving DecidableEq

/-- The argument dictionary of a tool call.  Each field models the
presence (`some`) or absence (`none`) of the corresponding key; a
handler subscripting an absent required key raises, which the model
renders as a `KeyError` exception string. -/
structure Args where
  keywords : Option (List String) := none
  max_results : Option Nat := none
  flow_type : Option String := none
  flow_id : Option String := none
  flow_name : Option String := none
  name : Option String := none
  description : Option String := none
  exchanges : Option (List ExArg) := none
  process_id : Option String := none
  process_name : Option String := none
  system_id : Option String := none
  system_name : Option String := none
  method_id : Option String := none
  method_keywords : Option (List String) := none
  amount : Option Rat := none
  result_id : Option String := none
deriving DecidableEq

/-- The remote side of every call a handler makes: client construction,
the search / data / systems / calculate / results components, and the
IPC-level operations.  Every operation may fail, modelling a raised
Python exception by `Except.error` with the exception's message.
Result objects are identified by the allocation number the server
assigns when storing them. -/
structure Oracle where
  connect : Except String Unit
  findFlows : List String → Nat → Option FlowType → Except String (List FlowDesc)
  findProcesses : List String → Nat → Except String (List FlowDesc)
  findImpactMethod : List String → Except String (Option Method)
  findProviders : ORef → Except String (List ProvDesc)
  createProductFlow : String → String → Except String FlowObj
  createExchange : ORef → Rat → Bool → Bool → Option ORef → Except String Nat
  createProcess : String → String → List Nat → Except String ProcObj
  createProductSystem : ORef → Except String SysObj
  getImpactMethod : String → Except String (Option Method)
  simpleCalculation : ORef → Method → Rat → Except String Unit
  getTotalImpacts : Nat → Except String Impacts
  disposeOp : Nat → Except String Unit
  testConnection : Except String Bool
  port : Nat

/-- The server's mutable state: the `_active_results` table mapping a
generated key to the stored result handle, an allocation counter for
fresh result objects, and a ghost log (`disposeCalls`) recording, purely
for specification purposes, each handle on which `result.dispose()` was
invoked. -/
structure SrvState where
  active_results : List (String × Nat) := []
  next : Nat := 0
  disposeCalls : List Nat := []
deriving DecidableEq

/-- The server state at startup: empty table. -/
def SrvState.init : SrvState := {}

/-- The key `str(id(result))` under which a fresh result is stored,
modelled as a string derived from the allocation number: all the source
relies on is that distinct live results have distinct keys. -/
def genKey (n : Nat) : String := String.mk (List.replicate n 'r')

/-- The exception raised by subscripting a missing dictionary key. -/
def keyErr (k : String) : String := "KeyError: " ++ k

/-- Subscripting `arguments[k]`: the value when the key is present, a
`KeyError` exception otherwise. -/
def req {α : Type} (v : Option α) (k : String) : Except String α :=
  match v with
  | some x => Except.ok x
  | none => Except.error (keyErr k)

/-- `getattr(o.FlowType, s)`: the member for a valid name, an
`AttributeError` exception otherwise. -/
def parseFlowType (s : String) : Except String FlowType :=
  if s = "PRODUCT_FLOW" then Except.ok FlowType.PRODUCT_FLOW
  else if s = "ELEMENTARY_FLOW" then Except.ok FlowType.ELEMENTARY_FLOW
  else if s = "WASTE_FLOW" then Except.ok FlowType.WASTE_FLOW
  else Except.error ("AttributeError: FlowType has no attribute " ++ s)

/-- A single-quote character, built numerically. -/
def sq : String := String.singleton (Char.ofNat 39)

/-- Python `str` of a list of strings, as interpolated into the
method-not-found message. -/
def pyStrList (l : List String) : String :=
  "[" ++ String.intercalate ", " (l.map fun s => sq ++ s ++ sq) ++ "]"

/-- The `try:` block of `handle_search_flows`. -/
def searchFlowsCore (o : Oracle) (a : Args) : Except String Resp := do
  let _ ← o.connect
  let keywords ← req a.keywords "keywords"
  let max_results := a.max_results.getD 10
  let flow_type ← match a.flow_type with
    | none => pure (none : Option FlowType)
    | some s =>
      if s.isEmpty then pure none
      else do
        let ft ← parseFlowType s
        pure (some ft)
  let flows ← o.findFlows keywords max_results flow_type
  pure { success := true, payload := Payload.flows flows }

/-- The `try:` block of `handle_search_processes`. -/
def searchProcessesCore (o : Oracle) (a : Args) : Except String Resp := do
  let _ ← o.connect
  let keywords ← req a.keywords "keywords"
  let max_results := a.max_results.getD 10
  let processes ← o.findProcesses keywords max_results
  pure { success := true, payload := Payload.processes processes }

/-- The `try:` block of `handle_search_impact_methods`. -/
def searchImpactMethodsCore (o : Oracle) (a : Args) : Except String Resp := do
  let _ ← o.connect
  let keywords ← req a.keywords "keywords"
  let m ← o.findImpactMethod keywords
  match m with
  | some method => pure { success := true, payload := Payload.methodInfo method }
  | none =>
    pure { success := false
           error := some ("Impact method not found with keywords: " ++ pyStrList keywords) }

/-- The `try:` block of `handle_find_providers`. -/
def findProvidersCore (o : Oracle) (a : Args) : Except String Resp := do
  let _ ← o.connect
  match a.flow_id, a.flow_name with
  | some fid, _ => do
    let providers ← o.findProviders (ORef.byId fid)
    pure { success := true, payload := Payload.providers providers }
  | none, some fname => do
    let flows ← o.findFlows [fname] 1 none
    match flows with
    | [] => pure { success := false, error := some ("Flow not found: " ++ fname) }
    | f :: _ => do
      let providers ← o.findProviders (ORef.fromDesc f)
      pure { success := true, payload := Payload.providers providers }
  | none, none =>
    pure { success := false, error := some "Either flow_id or flow_name must be provided" }

/-- The `try:` block of `handle_create_product_flow`. -/
def createProductFlowCore (o : Oracle) (a : Args) : Except String Resp := do
  let _ ← o.connect
  let name ← req a.name "name"
  let description := a.description.getD ""
  let flow ← o.createProductFlow name description
  pure { success := true, payload := Payload.flowCreated flow }

/-- The per-exchange body of the loop in `handle_create_process`: look
the flow up by its id used as a keyword, fall back to a bare reference,
then build the exchange through the data component. -/
def buildOneExchange (o : Oracle) (ed : ExArg) : Except String Nat := do
  let flows ← o.findFlows [ed.flow_id] 1 none
  let flow_ref := match flows with
    | [] => ORef.byId ed.flow_id
    | f :: _ => ORef.fromDesc f
  let provider := ed.provider_id.map ORef.byId
  o.createExchange flow_ref ed.amount ed.is_input
    (ed.is_quantitative_reference.getD false) provider

/-- The `try:` block of `handle_create_process`. -/
def createProcessCore (o : Oracle) (a : Args) : Except String Resp := do
  let _ ← o.connect
  let name ← req a.name "name"
  let description := a.description.getD ""
  let exchanges_data ← req a.exchanges "exchanges"
  let exchanges ← exchanges_data.mapM (buildOneExchange o)
  let process ← o.createProcess name description exchanges
  pure { success := true, payload := Payload.processCreated process }

/-- The `try:` block of `handle_create_product_system`. -/
def createProductSystemCore (o : Oracle) (a : Args) : Except String Resp := do
  let _ ← o.connect
  match a.process_id, a.process_name with
  | some pid, _ => do
    let system ← o.createProductSystem (ORef.byId pid)
    pure { success := true, payload := Payload.systemCreated system }
  | none, some pname => do
    let processes ← o.findProcesses [pname] 1
    match processes with
    | [] => pure { success := false, error := some ("Process not found: " ++ pname) }
    | p :: _ => do
      let system ← o.createProductSystem (ORef.fromDesc p)
      pure { success := true, payload := Payload.systemCreated system }
  | none, none =>
    pure { success := false, error := some "Either process_id or process_name must be provided" }

/-- The `try:` block of `handle_test_connection`. -/
def testConnectionCore (o : Oracle) (_a : Args) : Except String Resp := do
  let _ ← o.connect
  let is_connected ← o.testConnection
  pure { success := true, payload := Payload.connection is_connected o.port }

/-- The system reference resolution of `handle_calculate_impacts`:
`system_id` wins; a bare `system_name` is wrapped as if it were an id
(the source's simplified lookup); with neither key the handler answers
a normal failure response. -/
def sysRefOf (a : Args) : Option ORef :=
  match a.system_id, a.system_name with
  | some i, _ => some (ORef.byId i)
  | none, some n => some (ORef.byId n)
  | none, none => none

/-- The reminder message attached to every successful calculation. -/
def calcWarning : String :=
  "IMPORTANT: Call dispose_result when done with this result_id"

/-- The tail of `handle_calculate_impacts` once the method lookup has
come back: reject a missing method, run the calculation, store the
result in the active-results table BEFORE reading its totals (so a
failure in `get_total_impacts` leaves the handle stored), and answer
with the generated result id. -/
def calcWithMethod (o : Oracle) (a : Args) (s : SrvState) (system_ref : ORef)
    (m : Option Method) : Except String Resp × SrvState :=
  match m with
  | none => (Except.ok { success := false, error := some "Impact method not found" }, s)
  | some method =>
    let amount := a.amount.getD 1
    match o.simpleCalculation system_ref method amount with
    | Except.error e => (Except.error e, s)
    | Except.ok _ =>
      let result_id := genKey s.next
      let handle := s.next
      let s1 : SrvState := { s with
        active_results := s.active_results ++ [(result_id, handle)]
        next := s.next + 1 }
      match o.getTotalImpacts handle with
      | Except.error e => (Except.error e, s1)
      | Except.ok impacts =>
        (Except.ok { success := true
                     payload := Payload.calcResult result_id impacts calcWarning }, s1)

/-- The `try:` block of `handle_calculate_impacts`, threading the
active-results table. -/
def calculateImpactsBody (o : Oracle) (a : Args) (s : SrvState) :
    Except String Resp × SrvState :=
  match o.connect with
  | Except.error e => (Except.error e, s)
  | Except.ok _ =>
    match sysRefOf a with
    | none =>
      (Except.ok { success := false
                   error := some "Either system_id or system_name must be provided" }, s)
    | some system_ref =>
      match a.method_id, a.method_keywords with
      | none, none =>
        (Except.ok { success := false
                     error := some "Either method_id or method_keywords must be provided" }, s)
      | some mid, _ =>
        match o.getImpactMethod mid with
        | Except.error e => (Except.error e, s)
        | Except.ok m => calcWithMethod o a s system_ref m
      | none, some kws =>
        match o.findImpactMethod kws with
        | Except.error e => (Except.error e, s)
        | Except.ok m => calcWithMethod o a s system_ref m

/-- The `try:` block of `handle_dispose_result`: a stored key invokes
`result.dispose()` (recorded in the ghost log) and deletes the entry
only when disposal returned; an unknown key answers the not-found
failure without touching the table. -/
def disposeResultBody (o : Oracle) (a : Args) (s : SrvState) :
    Except String Resp × SrvState :=
  match a.result_id with
  | none => (Except.error (keyErr "result_id"), s)
  | some result_id =>
    match s.active_results.lookup result_id with
    | some handle =>
      let s1 : SrvState := { s with disposeCalls := s.disposeCalls ++ [handle] }
      match o.disposeOp handle with
      | Except.error e => (Except.error e, s1)
      | Except.ok _ =>
        (Except.ok { success := true
                     payload := Payload.message ("Result " ++ result_id ++ " disposed successfully") },
         { s1 with active_results := s1.active_results.eraseP (fun kv => kv.1 == result_id) })
    | none =>
      (Except.ok { success := false
                   error := some ("Result " ++ result_id ++ " not found") }, s)

/-- Lifts a handler body that makes no use of the active-results table
to the common stateful body type. -/
def stateless (f : Oracle → Args → Except String Resp) :
    Oracle → Args → SrvState → Except String Resp × SrvState :=
  fun o a s => (f o a, s)

/-- The `except Exception` boundary every handler wraps around its
body: a raised exception becomes a `success = false` object carrying
the exception text. -/
def catchResp : Except String Resp → Resp
  | Except.ok r => r
  | Except.error e => { success := false, error := some e }

/-- Builds a handler from its `try:` body by installing the uniform
exception boundary; state changes made before the exception persist. -/
def wrapHandler (body : Oracle → Args → SrvState → Except String Resp × SrvState) :
    Oracle → Args → SrvState → Resp × SrvState :=
  fun o a s =>
    let r := body o a s
    (catchResp r.1, r.2)

/-- `handle_search_flows`. -/
def handle_search_flows : Oracle → Args → SrvState → Resp × SrvState :=
  wrapHandler (stateless searchFlowsCore)

/-- `handle_search_processes`. -/
def handle_search_processes : Oracle → Args → SrvState → Resp × SrvState :=
  wrapHandler (stateless searchProcessesCore)

/-- `handle_search_impact_methods`. -/
def handle_search_impact_methods : Oracle → Args → SrvState → Resp × SrvState :=
  wrapHandler (stateless searchImpactMethodsCore)

/-- `handle_find_providers`. -/
def handle_find_providers : Oracle → Args → SrvState → Resp × SrvState :=
  wrapHandler (stateless findProvidersCore)

/-- `handle_create_product_flow`. -/
def handle_create_product_flow : Oracle → Args → SrvState → Resp × SrvState :=
  wrapHandler (stateless createProductFlowCore)

/-- `handle_create_process`. -/
def handle_create_process : Oracle → Args → SrvState → Resp × SrvState :=
  wrapHandler (stateless createProcessCore)

/-- `handle_create_product_system`. -/
def handle_create_product_system : Oracle → Args → SrvState → Resp × SrvState :=
  wrapHandler (stateless createProductSystemCore)

/-- `handle_calculate_impacts`. -/
def handle_calculate_impacts : Oracle → Args → SrvState → Resp × SrvState :=
  wrapHandler calculateImpactsBody

/-- `handle_dispose_result`. -/
def handle_dispose_result : Oracle → Args → SrvState → Resp × SrvState :=
  wrapHandler disposeResultBody

/-- `handle_test_connection`. -/
def handle_test_connection : Oracle → Args → SrvState → Resp × SrvState :=
  wrapHandler (stateless testConnectionCore)

/-- The `TOOL_HANDLERS` dictionary, in source order. -/
def TOOL_HANDLERS : List (String × (Oracle → Args → SrvState → Resp × SrvState)) :=
  [("search_flows", handle_search_flows),
   ("search_processes", handle_search_processes),
   ("search_impact_methods", handle_search_impact_methods),
   ("find_providers", handle_find_providers),
   ("create_product_flow", handle_create_product_flow),
   ("create_process", handle_create_process),
   ("create_product_system", handle_create_product_system),
   ("calculate_impacts", handle_calculate_impacts),
   ("dispose_result", handle_dispose_result),
   ("test_connection", handle_test_connection)]

/-- The `try:` body behind each registered tool name. -/
def toolBody (name : String) :
    Oracle → Args → SrvState → Except String Resp × SrvState :=
  if name = "search_flows" then stateless searchFlowsCore
  else if name = "search_processes" then stateless searchProcessesCore
  else if name = "search_impact_methods" then stateless searchImpactMethodsCore
  else if name = "find_providers" then stateless findProvidersCore
  else if name = "create_product_flow" then stateless createProductFlowCore
  else if name = "create_process" then stateless createProcessCore
  else if name = "create_product_system" then stateless createProductSystemCore
  else if name = "calculate_impacts" then calculateImpactsBody
  else if name = "dispose_result" then disposeResultBody
  else if name = "test_connection" then stateless testConnectionCore
  else fun _ _ s => (Except.error "unregistered tool", s)

/-- The names of the `Tool` declarations returned by `list_tools`, in
source order (only the names matter for dispatch). -/
def list_tools : List String :=
  ["test_connection", "search_flows", "search_processes", "search_impact_methods",
   "find_providers", "create_product_flow", "create_process", "create_product_system",
   "calculate_impacts", "analyze_contributions", "run_monte_carlo", "export_results",
   "dispose_result"]

/-- `call_tool(name, arguments)`: dispatch through `TOOL_HANDLERS`,
answering an `Unknown tool` failure for a name without a handler. -/
def call_tool (name : String) (o : Oracle) (a : Args) (s : SrvState) :
    Resp × SrvState :=
  match TOOL_HANDLERS.lookup name with
  | some h => h o a s
  | none => ({ success := false, error := some ("Unknown tool: " ++ name) }, s)

/-- A fixed impact method used by concrete oracles. -/
def stdMethod : Method := { id := "m1", name := "Method" }

/-- An oracle on which every remote operation succeeds with fixed
data. -/
def oracleBase : Oracle :=
  { connect := Except.ok ()
    findFlows := fun _ _ _ => Except.ok []
    findProcesses := fun _ _ => Except.ok []
    findImpactMethod := fun _ => Except.ok (some stdMethod)
    findProviders := fun _ => Except.ok []
    createProductFlow := fun n d => Except.ok { id := "f1", name := n, description := d }
    createExchange := fun _ _ _ _ _ => Except.ok 0
    createProcess := fun n d _ => Except.ok { id := "p1", name := n, description := d }
    createProductSystem := fun _ => Except.ok { id := "s1", name := "sys" }
    getImpactMethod := fun _ => Except.ok (some stdMethod)
    simpleCalculation := fun _ _ _ => Except.ok ()
    getTotalImpacts := fun _ => Except.ok [("GWP", 1)]
    disposeOp := fun _ => Except.ok ()
    testConnection := Except.ok true
    port := 8080 }

/-- An oracle whose client construction itself raises. -/
def oracleFail : Oracle := { oracleBase with connect := Except.error "boom" }

/-- C1: `list_tools` advertises `analyze_contributions`,
`run_monte_carlo` and `export_results`, but `TOOL_HANDLERS` carries no
handler for any of them, so `call_tool` answers each of these
advertised tools with an `Unknown tool` failure — refuting the claim
that every advertised tool dispatches to a handler. -/
theorem advertised_tools_without_handlers :
    ("analyze_contributions" ∈ list_tools ∧
      "run_monte_carlo" ∈ list_tools ∧
      "export_results" ∈ list_tools) ∧
    (TOOL_HANDLERS.lookup "analyze_contributions" = none ∧
      TOOL_HANDLERS.lookup "run_monte_carlo" = none ∧
      TOOL_HANDLERS.lookup "export_results" = none) ∧
    call_tool "analyze_contributions" oracleBase {} SrvState.init =
      ({ success := false, error := some "Unknown tool: analyze_contributions" },
        SrvState.init) ∧
    call_tool "run_monte_carlo" oracleBase {} SrvState.init =
      ({ success := false, error := some "Unknown tool: run_monte_carlo" },
        SrvState.init) ∧
    call_tool "export_results" oracleBase {} SrvState.init =
      ({ success := false, error := some "Unknown tool: export_results" },
        SrvState.init) := by
  refine ⟨⟨?_, ?_, ?_⟩, ⟨rfl, rfl, rfl⟩, rfl, rfl, rfl⟩ <;> simp [list_tools]

theorem wrapHandler_error
    (body : Oracle → Args → SrvState → Except String Resp × SrvState)
    (o : Oracle) (a : Args) (s : SrvState) (e : String)
    (h : (body o a s).1 = Except.error e) :
    wrapHandler body o a s =
      ({ success := false, error := some e }, (body o a s).2) := by
  show (catchResp (body o a s).1, (body o a s).2) = _
  rw [h]
  rfl

/-- C4: every handler registered in `TOOL_HANDLERS` is its `try:` body
behind the uniform exception boundary: whenever the body raises an
exception, the handler returns a `success = false` object carrying the
exception's text (state changes already made persist), and the
exception does not propagate. -/
theorem tool_handlers_catch_exceptions :
    ∀ p ∈ TOOL_HANDLERS, ∀ (o : Oracle) (a : Args) (s : SrvState) (e : String),
      (toolBody p.1 o a s).1 = Except.error e →
      p.2 o a s = ({ success := false, error := some e }, (toolBody p.1 o a s).2) := by
  intro p hp o a s e he
  simp only [TOOL_HANDLERS, List.mem_cons, List.not_mem_nil, or_false] at hp
  rcases hp with rfl | rfl | rfl | rfl | rfl | rfl | rfl | rfl | rfl | rfl <;>
    exact wrapHandler_error _ o a s e he

/-- C4 witness: a failing client construction inside `search_flows`
is caught and reported as a failure response. -/
theorem tool_handlers_catch_exceptions_witness :
    (toolBody "search_flows" oracleFail {} SrvState.init).1 = Except.error "boom" ∧
    handle_search_flows oracleFail {} SrvState.init =
      ({ success := false, error := some "boom" }, SrvState.init) :=
  ⟨rfl, tool_handlers_catch_exceptions ("search_flows", handle_search_flows)
    (List.Mem.head _) oracleFail {} SrvState.init "boom" rfl⟩

/-- C5: disposing a result id that is not in the active-results table
returns a failure response with error `Result <id> not found`, raises
nothing, and leaves the table (indeed the whole server state)
unchanged. -/
theorem dispose_result_not_found (o : Oracle) (a : Args) (s : SrvState) (k : String)
    (hk : a.result_id = some k)
    (habs : s.active_results.lookup k = none) :
    handle_dispose_result o a s =
      ({ success := false, error := some ("Result " ++ k ++ " not found") }, s) := by
  show (catchResp (disposeResultBody o a s).1, (disposeResultBody o a s).2) = _
  rw [disposeResultBody, hk]
  simp only [habs]
  rfl

/-- C5 witness: a concrete unknown key against the startup state. -/
theorem dispose_result_not_found_witness :
    ({ result_id := some "zzz" } : Args).result_id = some "zzz" ∧
    SrvState.init.active_results.lookup "zzz" = none ∧
    handle_dispose_result oracleBase { result_id := some "zzz" } SrvState.init =
      ({ success := false, error := some ("Result " ++ "zzz" ++ " not found") },
        SrvState.init) :=
  ⟨rfl, rfl, dispose_result_not_found oracleBase { result_id := some "zzz" }
    SrvState.init "zzz" rfl rfl⟩

/-- Well-formed argument dictionary for a calculate_impacts call used
in traces: a system id and a method id are supplied. -/
def calcArgs : Args := { system_id := some "sys1", method_id := some "m1" }

/-- Argument dictionary for a dispose_result call on key `k`. -/
def dispArgs (k : String) : Args := { result_id := some k }

/-- An oracle for one calculate_impacts call whose calculation step
succeeds iff `cOk` and whose impact extraction succeeds iff `iOk`. -/
def calcOracle (cOk iOk : Bool) : Oracle :=
  { oracleBase with
    simpleCalculation := fun _ _ _ =>
      if cOk then Except.ok () else Except.error "calculation failed"
    getTotalImpacts := fun _ =>
      if iOk then Except.ok [("GWP", 1)] else Except.error "impacts failed" }

/-- An oracle for one dispose_result call whose `result.dispose()`
succeeds iff `dOk`. -/
def dispOracle (dOk : Bool) : Oracle :=
  { oracleBase with
    disposeOp := fun _ =>
      if dOk then Except.ok () else Except.error "dispose failed" }

/-- One step of a calculate_impacts / dispose_result interaction
sequence, tagged with the outcome of each fallible remote operation the
step performs. -/
inductive ROp where
  | calcImpacts (calcOk impactsOk : Bool)
  | disposeResult (key : String) (disposeOk : Bool)
deriving DecidableEq

/-- Executes one trace step through the real dispatch layer. -/
def stepR (s : SrvState) : ROp → Resp × SrvState
  | .calcImpacts cOk iOk => call_tool "calculate_impacts" (calcOracle cOk iOk) calcArgs s
  | .disposeResult k dOk => call_tool "dispose_result" (dispOracle dOk) (dispArgs k) s

/-- Executes a trace, collecting every response. -/
def runOps : SrvState → List ROp → List Resp × SrvState
  | s, [] => ([], s)
  | s, op :: rest =>
    let r1 := stepR s op
    let rest1 := runOps r1.2 rest
    (r1.1 :: rest1.1, rest1.2)

/-- The plain bookkeeping the active-results table is claimed to
implement: a successful calculation stores a fresh handle under its
generated key — whether or not the subsequent impact read succeeds —
and a dispose on a stored key invokes `dispose()` on its handle,
deleting the entry only when that invocation succeeds. -/
structure Book where
  table : List (String × Nat) := []
  next : Nat := 0
  disposeLog : List Nat := []
deriving DecidableEq

/-- The bookkeeping state at startup. -/
def Book.init : Book := {}

/-- One bookkeeping step; the returned boolean is the reported success
of the tool call. -/
def bookStep (b : Book) : ROp → Bool × Book
  | .calcImpacts cOk iOk =>
    if cOk then
      (iOk, { b with table := b.table ++ [(genKey b.next, b.next)], next := b.next + 1 })
    else
      (false, b)
  | .disposeResult k dOk =>
    match b.table.lookup k with
    | some h =>
      if dOk then
        (true, { b with table := b.table.eraseP (fun kv => kv.1 == k)
                        disposeLog := b.disposeLog ++ [h] })
      else
        (false, { b with disposeLog := b.disposeLog ++ [h] })
    | none => (false, b)

/-- Runs the bookkeeping over a trace, collecting reported successes. -/
def bookRun : Book → List ROp → List Bool × Book
  | b, [] => ([], b)
  | b, op :: rest =>
    let r1 := bookStep b op
    let rest1 := bookRun r1.2 rest
    (r1.1 :: rest1.1, rest1.2)

/-- Correspondence between a server state and a bookkeeping state. -/
def agrees (s : SrvState) (b : Book) : Prop :=
  s.active_results = b.table ∧ s.next = b.next ∧ s.disposeCalls = b.disposeLog

theorem stepR_calc_eq (s : SrvState) (cOk iOk : Bool) :
    stepR s (ROp.calcImpacts cOk iOk) =
      if cOk then
        (if iOk then
          ({ success := true
             payload := Payload.calcResult (genKey s.next) [("GWP", 1)] calcWarning },
           { s with active_results := s.active_results ++ [(genKey s.next, s.next)]
                    next := s.next + 1 })
        else
          ({ success := false, error := some "impacts failed" },
           { s with active_results := s.active_results ++ [(genKey s.next, s.next)]
                    next := s.next + 1 }))
      else
        (({ success := false, error := some "calculation failed" } : Resp), s) := by
  cases cOk <;> cases iOk <;> rfl

theorem stepR_dispose_eq (s : SrvState) (k : String) (dOk : Bool) :
    stepR s (ROp.disposeResult k dOk) =
      match s.active_results.lookup k with
      | some h =>
        if dOk then
          ({ success := true
             payload := Payload.message ("Result " ++ k ++ " disposed successfully") },
           { s with active_results := s.active_results.eraseP (fun kv => kv.1 == k)
                    disposeCalls := s.disposeCalls ++ [h] })
        else
          ({ success := false, error := some "dispose failed" },
           { s with disposeCalls := s.disposeCalls ++ [h] })
      | none =>
        ({ success := false, error := some ("Result " ++ k ++ " not found") }, s) := by
  show (catchResp (disposeResultBody (dispOracle dOk) (dispArgs k) s).1,
        (disposeResultBody (dispOracle dOk) (dispArgs k) s).2) = _
  rw [disposeResultBody]
  cases hl : s.active_results.lookup k with
  | none => simp only [dispArgs, hl]; rfl
  | some h => cases dOk <;> · simp only [dispArgs, hl]; rfl

theorem stepR_book_agree (s : SrvState) (b : Book) (op : ROp) (h : agrees s b) :
    (stepR s op).1.success = (bookStep b op).1 ∧
    agrees (stepR s op).2 (bookStep b op).2 := by
  obtain ⟨ht, hn, hd⟩ := h
  cases op with
  | calcImpacts cOk iOk =>
    rw [stepR_calc_eq]
    cases cOk <;> cases iOk <;>
      simp [bookStep, agrees, ht, hn, hd]
  | disposeResult k dOk =>
    rw [stepR_dispose_eq, ht]
    cases hl : b.table.lookup k with
    | none => simp [bookStep, hl, agrees, ht, hn, hd]
    | some hh => cases dOk <;> simp [bookStep, hl, agrees, ht, hn, hd]

theorem runOps_book_agree :
    ∀ (ops : List ROp) (s : SrvState) (b : Book), agrees s b →
      (runOps s ops).1.map Resp.success = (bookRun b ops).1 ∧
      agrees (runOps s ops).2 (bookRun b ops).2 := by
  intro ops
  induction ops with
  | nil => intro s b h; exact ⟨rfl, h⟩
  | cons op rest ih =>
    intro s b h
    obtain ⟨hsucc, hagree⟩ := stepR_book_agree s b op h
    obtain ⟨ihsucc, ihagree⟩ := ih (stepR s op).2 (bookStep b op).2 hagree
    exact ⟨by simp [runOps, bookRun, hsucc, ihsucc], by simpa [runOps, bookRun] using ihagree⟩

theorem genKey_inj (m1 m2 : Nat) (h : genKey m1 = genKey m2) : m1 = m2 := by
  have h2 : List.replicate m1 'r' = List.replicate m2 'r' := congrArg String.data h
  have h3 := congrArg List.length h2
  simpa using h3

/-- Well-formedness of a bookkeeping table: every entry is a handle
below the allocation counter stored under its generated key, and keys
are pairwise distinct. -/
def BookWF (b : Book) : Prop :=
  (∀ p ∈ b.table, p.2 < b.next ∧ p.1 = genKey p.2) ∧
    b.table.Pairwise (fun x y => x.1 ≠ y.1)

theorem bookStep_wf (b : Book) (op : ROp) (h : BookWF b) : BookWF (bookStep b op).2 := by
  obtain ⟨hbound, hdist⟩ := h
  cases op with
  | calcImpacts cOk iOk =>
    cases cOk with
    | false => exact ⟨hbound, hdist⟩
    | true =>
      have h1 : ∀ p ∈ b.table ++ [(genKey b.next, b.next)],
          p.2 < b.next + 1 ∧ p.1 = genKey p.2 := by
        intro p hp
        rcases List.mem_append.mp hp with hp | hp
        · obtain ⟨hlt, hk⟩ := hbound p hp
          exact ⟨Nat.lt_succ_of_lt hlt, hk⟩
        · rcases List.mem_singleton.mp hp with rfl
          exact ⟨Nat.lt_succ_self _, rfl⟩
      have h2 : (b.table ++ [(genKey b.next, b.next)]).Pairwise (fun x y => x.1 ≠ y.1) := by
        rw [List.pairwise_append]
        refine ⟨hdist, List.pairwise_singleton _ _, ?_⟩
        intro p hp q hq
        rcases List.mem_singleton.mp hq with rfl
        obtain ⟨hlt, hk⟩ := hbound p hp
        intro hcontra
        rw [hk] at hcontra
        exact absurd (genKey_inj _ _ hcontra) (Nat.ne_of_lt hlt)
      exact ⟨h1, h2⟩
  | disposeResult k dOk =>
    cases hl : b.table.lookup k with
    | none =>
      simp only [bookStep, hl]
      exact ⟨hbound, hdist⟩
    | some hh =>
      cases dOk with
      | false =>
        simp only [bookStep, hl]
        exact ⟨hbound, hdist⟩
      | true =>
        have hsub : (b.table.eraseP (fun kv => kv.1 == k)).Sublist b.table :=
          List.eraseP_sublist _
        have h1 : ∀ p ∈ b.table.eraseP (fun kv => kv.1 == k),
            p.2 < b.next ∧ p.1 = genKey p.2 :=
          fun p hp => hbound p (hsub.subset hp)
        have h2 : (b.table.eraseP (fun kv => kv.1 == k)).Pairwise (fun x y => x.1 ≠ y.1) :=
          hdist.sublist hsub
        simp only [bookStep, hl]
        exact ⟨h1, h2⟩

theorem bookRun_wf (ops : List ROp) :
    ∀ b : Book, BookWF b → BookWF (bookRun b ops).2 := by
  induction ops with
  | nil => intro b h; exact h
  | cons op rest ih =>
    intro b h
    simpa [bookRun] using ih _ (bookStep_wf b op h)

theorem lookup_none_of_keys_ne (k : String) :
    ∀ t : List (String × Nat), (∀ q ∈ t, q.1 ≠ k) → t.lookup k = none := by
  intro t
  induction t with
  | nil => intro _; rfl
  | cons q t ih =>
    intro h
    have hq : (k == q.1) = false := by
      simp [Ne.symm (h q (List.mem_cons_self q t))]
    simp only [List.lookup, hq]
    exact ih fun r hr => h r (List.mem_cons_of_mem q hr)

theorem lookup_eraseP_none (k : String) :
    ∀ t : List (String × Nat), t.Pairwise (fun x y => x.1 ≠ y.1) →
      (t.eraseP (fun kv => kv.1 == k)).lookup k = none := by
  intro t
  induction t with
  | nil => intro _; rfl
  | cons p t ih =>
    intro hd
    obtain ⟨hhead, htail⟩ := List.pairwise_cons.mp hd
    by_cases hp : p.1 = k
    · rw [List.eraseP_cons]
      simp only [hp, beq_self_eq_true, cond_true]
      exact lookup_none_of_keys_ne k t fun q hq => fun hcontra =>
        hhead q hq (hp.trans hcontra.symm)
    · rw [List.eraseP_cons]
      have hpb : (p.1 == k) = false := by simp [hp]
      have hpb2 : (k == p.1) = false := by simp [Ne.symm hp]
      simp only [hpb, cond_false]
      simp only [List.lookup, hpb2]
      exact ih htail

/-- C6 counterexample: the claimed invariant fails on the code in two
ways, both exhibited at concrete traces.  First, a calculate_impacts
call whose calculation succeeds but whose impact extraction raises
reports `success = false` yet leaves its handle stored in the
active-results table, so the table does not hold exactly the handles of
successful calls.  Second, when `result.dispose()` itself raises, the
key stays in the table and a retry invokes `dispose()` a second time on
the same stored handle (ghost log `[0, 0]`), so `dispose()` is not
invoked at most once per stored handle. -/
theorem active_results_claim_counterexample :
    ((runOps SrvState.init [ROp.calcImpacts true false]).1.map Resp.success = [false] ∧
      (runOps SrvState.init [ROp.calcImpacts true false]).2.active_results =
        [(genKey 0, 0)]) ∧
    (runOps SrvState.init
        [ROp.calcImpacts true true, ROp.disposeResult (genKey 0) false,
         ROp.disposeResult (genKey 0) true]).2.disposeCalls = [0, 0] :=
  ⟨⟨rfl, rfl⟩, rfl⟩

/-- C6 (amended): after any sequence of calculate_impacts and
dispose_result calls, the active-results table, the `dispose()`
invocation log and the reported successes are exactly those of the
plain bookkeeping `bookStep`: the table holds exactly the handles of
calls whose calculation step succeeded (even when the subsequent
impact read failed and the call reported failure), each under its
generated key, minus the entries removed by successful disposals; and
after a dispose_result on key k succeeds, an immediately following
dispose_result on k returns the `Result <k> not found` failure and
leaves the state — including the `dispose()` invocation log —
unchanged, so `dispose()` is not invoked again for that key. -/
theorem active_results_invariant_amended (ops : List ROp) (k : String) (b2 : Bool) :
    ((runOps SrvState.init ops).2.active_results = (bookRun Book.init ops).2.table ∧
      (runOps SrvState.init ops).2.disposeCalls = (bookRun Book.init ops).2.disposeLog ∧
      (runOps SrvState.init ops).1.map Resp.success = (bookRun Book.init ops).1) ∧
    (∀ (r1 : Resp) (s1 : SrvState),
      stepR (runOps SrvState.init ops).2 (ROp.disposeResult k true) = (r1, s1) →
      r1.success = true →
      stepR s1 (ROp.disposeResult k b2) =
        ({ success := false, error := some ("Result " ++ k ++ " not found") }, s1)) := by
  have hag := runOps_book_agree ops SrvState.init Book.init ⟨rfl, rfl, rfl⟩
  refine ⟨⟨hag.2.1, hag.2.2.2, hag.1⟩, ?_⟩
  intro r1 s1 hstep hsucc
  have hwf : BookWF (bookRun Book.init ops).2 :=
    bookRun_wf ops Book.init
      ⟨fun p hp => absurd hp (List.not_mem_nil p), List.Pairwise.nil⟩
  have hdist : (runOps SrvState.init ops).2.active_results.Pairwise
      (fun x y => x.1 ≠ y.1) := by
    rw [hag.2.1]
    exact hwf.2
  cases hl : (runOps SrvState.init ops).2.active_results.lookup k with
  | none =>
    have hstep2 : stepR (runOps SrvState.init ops).2 (ROp.disposeResult k true) =
        ({ success := false, error := some ("Result " ++ k ++ " not found") },
         (runOps SrvState.init ops).2) := by
      rw [stepR_dispose_eq, hl]
    have hpair := hstep.symm.trans hstep2
    injection hpair with hr hs
    rw [hr] at hsucc
    simp at hsucc
  | some h =>
    have hstep2 : stepR (runOps SrvState.init ops).2 (ROp.disposeResult k true) =
        ({ success := true
           payload := Payload.message ("Result " ++ k ++ " disposed successfully") },
         { (runOps SrvState.init ops).2 with
             active_results :=
               (runOps SrvState.init ops).2.active_results.eraseP (fun kv => kv.1 == k)
             disposeCalls := (runOps SrvState.init ops).2.disposeCalls ++ [h] }) := by
      rw [stepR_dispose_eq, hl]
      rfl
    have hpair := hstep.symm.trans hstep2
    injection hpair with hr hs
    subst hs
    rw [stepR_dispose_eq]
    have hnone := lookup_eraseP_none k (runOps SrvState.init ops).2.active_results hdist
    dsimp only
    rw [hnone]

/-- C6 witness: a concrete trace of one successful calculation followed
by a successful dispose, after which a second dispose of the same key
answers the not-found failure and leaves the state unchanged. -/
theorem active_results_invariant_amended_witness :
    stepR (runOps SrvState.init [ROp.calcImpacts true true]).2
        (ROp.disposeResult (genKey 0) true) =
      ({ success := true
         payload := Payload.message ("Result " ++ genKey 0 ++ " disposed successfully") },
       { active_results := [], next := 1, disposeCalls := [0] }) ∧
    stepR { active_results := [], next := 1, disposeCalls := [0] }
        (ROp.disposeResult (genKey 0) true) =
      ({ success := false, error := some ("Result " ++ genKey 0 ++ " not found") },
       { active_results := [], next := 1, disposeCalls := [0] }) :=
  ⟨rfl,
    (active_results_invariant_amended [ROp.calcImpacts true true] (genKey 0) true).2
      { success := true
        payload := Payload.message ("Result " ++ genKey 0 ++ " disposed successfully") }
      { active_results := [], next := 1, disposeCalls := [0] } rfl rfl⟩

end Mcp

namespace OlcaUtils

/-- The imported component classes as an opaque token: only whether
the importing succeeded matters to the initializer. -/
structure ImportedClasses where
  token : Nat
deriving DecidableEq

/-- The observable bindings the package initializer leaves behind:
`__version__`, `__author__`, `__all__`, the `OLCAClient` binding
(`none` models the Python `None` fallback), and the warning printed
on failure of the imports. -/
structure UtilsModule where
  version : String
  author : String
  all : List String
  olcaClient : Option ImportedClasses
  warning : Option String
deriving DecidableEq

/-- The ten component class names exported by the success branch. -/
def tenClassNames : List String :=
  ["OLCAClient", "SearchUtils", "DataBuilder", "SystemBuilder",
   "CalculationManager", "ResultsAnalyzer", "ContributionAnalyzer",
   "UncertaintyAnalyzer", "ParameterManager", "ExportManager"]

/-- The module body of `olca_utils/__init__.py`: attempt the
submodule imports; on success bind the classes and set `__all__` to the ten
component names; on `ImportError` print a warning carrying the
exception text, bind `OLCAClient = None` and set `__all__ = []`.  The
initializer is total: the failure branch returns normally instead of
re-raising. -/
def initOlcaUtils (imports : Except String ImportedClasses) : UtilsModule :=
  match imports with
  | Except.ok c =>
    { version := "0.1.0"
      author := "SD2 Lab"
      all := tenClassNames
      olcaClient := some c
      warning := none }
  | Except.error e =>
    { version := "0.1.0"
      author := "SD2 Lab"
      all := []
      olcaClient := none
      warning := some ("Warning: Could not import OLCAClient or utility classes: " ++ e) }

/-- C10: importing `olca_utils` when its submodules are absent does not
raise — the initializer is a total function of the import outcome — the
`ImportError` is caught, a warning naming the failure is printed,
`OLCAClient` is bound to `None` and `__all__` to the empty list; the
success branch instead exposes the ten component classes. -/
theorem init_import_failure_fallback (e : String) (c : ImportedClasses) :
    (initOlcaUtils (Except.error e)).all = [] ∧
    (initOlcaUtils (Except.error e)).olcaClient = none ∧
    (initOlcaUtils (Except.error e)).warning =
      some ("Warning: Could not import OLCAClient or utility classes: " ++ e) ∧
    (initOlcaUtils (Except.ok c)).all = tenClassNames ∧
    tenClassNames.length = 10 :=
  ⟨rfl, rfl, rfl, rfl, rfl⟩

end OlcaUtils
